import Mathlib

/-!
Connection lifecycle and pooling in `share/cluster/grpc.go`.

A shallow embedding of the client registry (`clientMap` and the functions
`CreateGRPCClient`, `DeleteGRPCClient`, `GetGRPCClient`, `GetGRPCClientEndpoint`,
`newClient`, `GRPCClient.shutdown`), of the connectivity watchdog
(`GRPCClient.monitorGRPCConnectivity`), of the compression probes
(`IsControllerGRPCCommpressed`, `IsEnforcerGRPCCommpressed`) and of the server
loop (`GRPCServer.Start`, `Stop`, `GracefulStop`).

Go state is passed explicitly: a `World` holds the package variable `clientMap`
and a trace of the effects performed so far (calls into the gRPC library, log
lines, sleeps, callbacks).  What the outside world answers (dial results, RPC
results, connectivity states) is an argument of the function that asks.
Every registry function runs under the package mutex `mtx`, so each one is an
atomic step on the `World`.  A call of the stub constructor, or of a nil function
value, can panic: such a call ends in `Call.panics`, and what was assigned through
an entry pointer before the panic stays in the `World`.
-/

namespace Cluster

/-! ## Data model -/

/-- Go `error` values are represented by their message; `nil` is `none : Option Error`. -/
abbrev Error := String

/-- Connectivity states of a gRPC channel, `connectivity.State`. -/
inductive connectivity.State
  | Idle
  | Connecting
  | Ready
  | TransientFailure
  | Shutdown
  deriving DecidableEq, Repr

/-- A `grpc.ClientConn` object; a `*grpc.ClientConn` is an `Option ClientConn`. -/
structure ClientConn where
  id : Nat
  deriving DecidableEq, Repr

/-- Go `type Service interface{}`: `none` is the nil interface, `some n` a stub object. -/
abbrev Service := Option Nat

/-- How a call of a Go function ends: it returns a value, or it panics. -/
inductive Call (α : Type)
  | returns (a : α)
  | panics
  deriving DecidableEq, Repr

/-- Go `type CreateService func(conn *grpc.ClientConn) Service`: a constructor supplied by the
caller, which may panic. A nil function value is `none : Option CreateService`. -/
abbrev CreateService := Option ClientConn → Call Service

/-- Go `GRPCCallback` interface value: `none` is nil, `some n` a callback object. -/
abbrev GRPCCallback := Option Nat

/-- A `context.CancelFunc`, named by the context it cancels. -/
abbrev CancelFunc := Nat

/-- Go `type IsCompressedFunc func(endpoint string) bool`. -/
abbrev IsCompressedFunc := String → Bool

/-- Go `type GRPCClient struct`: the Client Handle. -/
structure GRPCClient where
  conn : Option ClientConn
  server : String
  key : String
  cb : GRPCCallback
  deriving DecidableEq, Repr

/-- Go `type grpcClient struct`: the Pool Entry. -/
structure grpcClient where
  key : String
  endpoint : String
  autoRemove : Bool
  unix : Bool
  client : Option GRPCClient
  cancel : Option CancelFunc
  service : Service
  create : Option CreateService

/-- The two capability services a probe can ask. -/
inductive CapService
  | controller
  | enforcer
  deriving DecidableEq, Repr

/-- Effects visible outside the registry, in the order they happen. -/
inductive Event
  /-- a call of one of the dial functions `newGRPCClientTCP` / `newGRPCClientUnix` -/
  | newGRPCClient (unix : Bool) (key endpoint : String) (compress : Bool)
  /-- the statement `go c.monitorGRPCConnectivity(ctx)` -/
  | goMonitor (conn : ClientConn) (ctx : CancelFunc)
  /-- the call `conn.Close()` -/
  | connClose (conn : ClientConn)
  /-- a call of a `context.CancelFunc` -/
  | cancel (ctx : CancelFunc)
  /-- a call of the caller-supplied `IsCompressedFunc` -/
  | isCompressed (endpoint : String)
  /-- the call `s.create(conn)` -/
  | create (conn : Option ClientConn)
  /-- the call `cb.Shutdown()` -/
  | cbShutdown (cb : Nat)
  /-- the call `time.Sleep(seconds * time.Second)` -/
  | sleep (seconds : Nat)
  /-- the control RPC `IsGRPCCompressed` issued on a capability stub -/
  | rpcIsGRPCCompressed (svc : CapService) (conn : Option ClientConn)
  /-- the call `s.server.Serve(s.listen)` -/
  | serve
  /-- the call `s.server.Stop()` -/
  | serverStop
  /-- the call `s.server.GracefulStop()` -/
  | serverGracefulStop
  /-- Debug line "grpc connection state" -/
  | logConnState (s : connectivity.State)
  /-- Debug line "grpc connection state monitor cancelled" -/
  | logMonitorCancelled
  /-- Debug line at the head of `GRPCClient.shutdown` -/
  | logShutdown (server : String)
  /-- Error line "Failed to dial to grpc server" -/
  | logDialFailed (ep : String) (err : Error)
  /-- Debug line of `GetGRPCClient` with the endpoint and the compress flag -/
  | logCompress (ep : String) (compress : Bool)
  /-- Error line "Failed to get controller cap client" / "Failed to get enforcer cap client" -/
  | logCapFailed (svc : CapService) (err : Error)
  /-- Error line "Fail to start grpc server" -/
  | logServeFailed (err : Error)
  deriving DecidableEq, Repr

/-- The package state: `clientMap` and the effects performed so far. -/
structure World where
  clientMap : String → Option grpcClient
  trace : List Event

/-- The state at process start: `clientMap = make(map[string]*grpcClient, 0)`. -/
def World.empty : World := ⟨fun _ => none, []⟩

/-- Append one effect to the trace. -/
def World.emit (w : World) (e : Event) : World := ⟨w.clientMap, w.trace ++ [e]⟩

/-- Go `clientMap[key] = s`, also the write-back of a mutation through the entry pointer. -/
def World.store (w : World) (key : String) (s : grpcClient) : World :=
  ⟨fun k => if k = key then some s else w.clientMap k, w.trace⟩

/-- Go `delete(clientMap, key)`. -/
def World.delete (w : World) (key : String) : World :=
  ⟨fun k => if k = key then none else w.clientMap k, w.trace⟩

/-- What the outside world answers during one call. -/
structure Env where
  /-- the context made by `context.WithCancel` / `context.WithTimeout` in this call -/
  ctx : CancelFunc
  /-- error of `ioutil.ReadFile` on the CA certificate -/
  readFile : Option Error
  /-- error of `tls.LoadX509KeyPair` -/
  loadX509KeyPair : Option Error
  /-- result of `grpc.DialContext` -/
  dialContext : Except Error ClientConn
  /-- result `(cap, err)` of the control RPC; `cap` is nil or carries `Value` -/
  isGRPCCompressed : Option Bool × Option Error

/-! ## Client handle -/

/-- Go `func (c *GRPCClient) GetClient() *grpc.ClientConn`. -/
def GRPCClient.GetClient (c : GRPCClient) : Option ClientConn := c.conn

/-- Go `func (c *GRPCClient) Close()`. -/
def GRPCClient.Close (c : GRPCClient) (w : World) : World :=
  match c.conn with
  | some conn => w.emit (.connClose conn)
  | none => w

/-- Go `newGRPCClientTCP`: load the certificates, dial, start the watchdog.
The TLS configuration (and the cached `subjectCN`) only shapes the dial options. -/
def newGRPCClientTCP (env : Env) (ctx : CancelFunc) (key endpoint : String) (cb : GRPCCallback)
    (compress : Bool) (w : World) : World × Except Error GRPCClient :=
  let w := w.emit (.newGRPCClient false key endpoint compress)
  match env.readFile with
  | some err => (w, .error err)
  | none =>
    match env.loadX509KeyPair with
    | some err => (w, .error err)
    | none =>
      match env.dialContext with
      | .error err => (w, .error err)
      | .ok conn => (w.emit (.goMonitor conn ctx), .ok ⟨some conn, endpoint, key, cb⟩)

/-- Go `newGRPCClientUnix`: dial the socket, start the watchdog. -/
def newGRPCClientUnix (env : Env) (ctx : CancelFunc) (key socket : String) (cb : GRPCCallback)
    (compress : Bool) (w : World) : World × Except Error GRPCClient :=
  let w := w.emit (.newGRPCClient true key socket compress)
  match env.dialContext with
  | .error err => (w, .error err)
  | .ok conn => (w.emit (.goMonitor conn ctx), .ok ⟨some conn, socket, key, cb⟩)

/-- Go `isUnixSocketEndpoint`: `!strings.Contains(endpoint, ":")`. -/
def isUnixSocketEndpoint (endpoint : String) : Bool :=
  !(endpoint.toList.contains ':')

/-! ## Client registry -/

/-- Go `CreateGRPCClient`. The returned error is nil (`none`) on success. -/
def CreateGRPCClient (key endpoint : String) (autoRemove : Bool)
    (create : Option CreateService) (w : World) : World × Option Error :=
  match w.clientMap key with
  | none =>
    let c : grpcClient := ⟨key, endpoint, autoRemove, false, none, none, none, create⟩
    let c : grpcClient := if isUnixSocketEndpoint endpoint then { c with unix := true } else c
    (w.store key c, none)
  | some _ => (w, some "Client exists")

/-- Go `DeleteGRPCClient`. The call `s.cancel()` of a nil function value panics, and then
neither `Close` nor `delete` runs. -/
def DeleteGRPCClient (key : String) (w : World) : World × Call Unit :=
  match w.clientMap key with
  | some s =>
    match s.client with
    | some cl =>
      match s.cancel with
      | some cancel => ((cl.Close (w.emit (.cancel cancel))).delete key, .returns ())
      | none => (w, .panics)
    | none => (w.delete key, .returns ())
  | none => (w, .returns ())

/-- Go `func (c *GRPCClient) shutdown()`: the watchdog's terminal handling. -/
def GRPCClient.shutdown (c : GRPCClient) (w : World) : World :=
  let w := w.emit (.logShutdown c.server)
  let w := match w.clientMap c.key with
    | some s =>
      let (s, w) := match s.client with
        | some cl => ({ s with client := none }, (cl.Close w).store c.key { s with client := none })
        | none => (s, w)
      if s.autoRemove then w.delete c.key else w
    | none => w
  match c.cb with
  | some cb => w.emit (.cbShutdown cb)
  | none => w

/-- The call `s.create(conn)`: calling a nil function value panics. -/
def callCreate (create : Option CreateService) (conn : Option ClientConn) : Call Service :=
  match create with
  | some f => f conn
  | none => .panics

/-- Go `newClient`: dial for entry `s`; on success assign `s.client`, then `s.cancel`, then
call `s.create` and assign its value to `s.service`. When the constructor panics the first
two assignments have been made and `s.service` is as it was. Returns the entry as the
pointer `s` leaves it, and the returned error or the panic. -/
def newClient (env : Env) (s : grpcClient) (cb : GRPCCallback) (compress : Bool) (w : World) :
    World × grpcClient × Call (Option Error) :=
  let ctx := env.ctx
  let r := if s.unix then newGRPCClientUnix env ctx s.key s.endpoint cb compress w
    else newGRPCClientTCP env ctx s.key s.endpoint cb compress w
  match r with
  | (w, .error err) => (w.emit (.logDialFailed s.endpoint err), s, .returns (some err))
  | (w, .ok c) =>
    let s : grpcClient := { s with client := some c }
    let s : grpcClient := { s with cancel := some ctx }
    let w := w.emit (.create c.GetClient)
    match callCreate s.create c.GetClient with
    | .returns v => (w, { s with service := v }, .returns none)
    | .panics => (w, s, .panics)

/-- Go `GetGRPCClient`: returns `(stub, error)`, or panics when `newClient` does; what
`newClient` assigned through the entry pointer before the panic stays in the registry. -/
def GetGRPCClient (env : Env) (key : String) (isCompressed : Option IsCompressedFunc)
    (cb : GRPCCallback) (w : World) : World × Call (Service × Option Error) :=
  match w.clientMap key with
  | some s =>
    match s.client with
    | some _ => (w, .returns (s.service, none))
    | none =>
      let (compress, w) := match isCompressed with
        | some f => (f s.endpoint, w.emit (.isCompressed s.endpoint))
        | none => (true, w)
      let w := w.emit (.logCompress s.endpoint compress)
      match newClient env s cb compress w with
      | (w, s, .returns none) => (w.store key s, .returns (s.service, none))
      | (w, _, .returns (some err)) => (w, .returns (none, some err))
      | (w, s, .panics) => (w.store key s, .panics)
  | none => (w, .returns (none, some "Client not found"))

/-- Go `GetGRPCClientEndpoint`. -/
def GetGRPCClientEndpoint (key : String) (w : World) : String :=
  match w.clientMap key with
  | some s => s.endpoint
  | none => ""

/-! ## Compatibility probe -/

/-- Go `IsControllerGRPCCommpressed`. The context is made with a 60 second timeout and
`defer cancel()` runs on every return path; a timeout shows as an RPC error. -/
def IsControllerGRPCCommpressed (env : Env) (endpoint : String) (w : World) : World × Bool :=
  let ctx := env.ctx
  let r := if isUnixSocketEndpoint endpoint then newGRPCClientUnix env ctx "" endpoint none true w
    else newGRPCClientTCP env ctx "" endpoint none true w
  match r with
  | (w, .error err) => ((w.emit (.logCapFailed .controller err)).emit (.cancel ctx), false)
  | (w, .ok c) =>
    let w := w.emit (.rpcIsGRPCCompressed .controller c.GetClient)
    let (cap, err) := env.isGRPCCompressed
    let capValue := match cap with
      | some v => v
      | none => false
    if err.isSome || cap.isNone || !capValue then (w.emit (.cancel ctx), false)
    else (w.emit (.cancel ctx), true)

/-- Go `IsEnforcerGRPCCommpressed`. -/
def IsEnforcerGRPCCommpressed (env : Env) (endpoint : String) (w : World) : World × Bool :=
  let ctx := env.ctx
  let r := if isUnixSocketEndpoint endpoint then newGRPCClientUnix env ctx "" endpoint none true w
    else newGRPCClientTCP env ctx "" endpoint none true w
  match r with
  | (w, .error err) => ((w.emit (.logCapFailed .enforcer err)).emit (.cancel ctx), false)
  | (w, .ok c) =>
    let w := w.emit (.rpcIsGRPCCompressed .enforcer c.GetClient)
    let (cap, err) := env.isGRPCCompressed
    let capValue := match cap with
      | some v => v
      | none => false
    if err.isSome || cap.isNone || !capValue then (w.emit (.cancel ctx), false)
    else (w.emit (.cancel ctx), true)

/-! ## Connectivity watchdog -/

/-- The `context.Context` a watchdog run is given: whether its owner has cancelled it. -/
structure Context where
  done : Bool
  deriving DecidableEq, Repr

/-- How far a watchdog run got on the observations it was given. -/
inductive Exit
  /-- returned after calling `c.shutdown()` -/
  | terminal
  /-- returned because `WaitForStateChange` reported the context done -/
  | cancelled
  /-- has not returned: blocked in `WaitForStateChange`, or the observations ran out -/
  | running
  deriving DecidableEq, Repr

/-- The library call `conn.WaitForStateChange(ctx, sourceState)`: `some true` when the
state left `sourceState` (`changed`), `some false` when it did not and `ctx` is done,
`none` when it neither changed nor was cancelled, so the call does not return. -/
def WaitForStateChange (ctx : Context) (_sourceState : connectivity.State) (changed : Bool) :
    Option Bool :=
  if changed then some true else if ctx.done then some false else none

/-- One pass of the loop body of `monitorGRPCConnectivity` from its top down to the call of
`WaitForStateChange`: `inl` when the watchdog is done, `inr` with the state to wait on.
`states` are the answers of the coming `conn.GetState()` calls. -/
def monitorHead (c : GRPCClient) (s : connectivity.State) (states : List connectivity.State)
    (w : World) : (World × Exit) ⊕ (connectivity.State × List connectivity.State × World) :=
  let w := w.emit (.logConnState s)
  if s = .Shutdown then .inl (c.shutdown w, .terminal)
  else if s = .TransientFailure then
    let w := w.emit (.sleep 1)
    match states with
    | [] => .inl (w, .running)
    | s :: states =>
      if s = .Shutdown ∨ s = .TransientFailure then .inl (c.shutdown w, .terminal)
      else .inr (s, states, w)
  else .inr (s, states, w)

/-- The loop of `monitorGRPCConnectivity` entered at `WaitForStateChange(ctx, s)`.
`changes` tells for each coming wait whether the state changes. -/
def monitorWait (c : GRPCClient) (ctx : Context) :
    List Bool → connectivity.State → List connectivity.State → World → World × Exit
  | [], _, _, w => (w, .running)
  | changed :: changes, s, states, w =>
    match WaitForStateChange ctx s changed with
    | none => (w, .running)
    | some false => (w.emit .logMonitorCancelled, .cancelled)
    | some true =>
      match states with
      | [] => (w, .running)
      | s :: states =>
        match monitorHead c s states w with
        | .inl r => r
        | .inr (s, states, w) => monitorWait c ctx changes s states w

/-- The loop of `monitorGRPCConnectivity` entered at its top with state `s`. -/
def monitorLoop (c : GRPCClient) (ctx : Context) (changes : List Bool) (s : connectivity.State)
    (states : List connectivity.State) (w : World) : World × Exit :=
  match monitorHead c s states w with
  | .inl r => r
  | .inr (s, states, w) => monitorWait c ctx changes s states w

/-- Go `func (c *GRPCClient) monitorGRPCConnectivity(ctx context.Context)`. -/
def GRPCClient.monitorGRPCConnectivity (c : GRPCClient) (ctx : Context)
    (states : List connectivity.State) (changes : List Bool) (w : World) : World × Exit :=
  match states with
  | [] => (w, .running)
  | s :: states => monitorLoop c ctx changes s states w

/-! ## Server endpoint -/

/-- Go `type GRPCServer struct`; the listener and the server handle only receive calls. -/
structure GRPCServer where
  stopped : Bool
  deriving DecidableEq, Repr

/-- Go `func (s *GRPCServer) Stop()`. -/
def GRPCServer.Stop (s : GRPCServer) (t : List Event) : GRPCServer × List Event :=
  ({ s with stopped := true }, t ++ [.serverStop])

/-- Go `func (s *GRPCServer) GracefulStop()`. -/
def GRPCServer.GracefulStop (s : GRPCServer) (t : List Event) : GRPCServer × List Event :=
  (s, t ++ [.serverGracefulStop])

/-- A stop operation another goroutine calls on the endpoint. -/
inductive StopCall
  | Stop
  | GracefulStop
  deriving DecidableEq, Repr

/-- One call of `s.server.Serve(s.listen)`: the stop operations called while it runs and
the error it returns. -/
structure ServeRound where
  during : List StopCall
  err : Option Error
  deriving DecidableEq, Repr

/-- Run the stop operations called during one `Serve`. -/
def applyCalls : List StopCall → GRPCServer → List Event → GRPCServer × List Event
  | [], s, t => (s, t)
  | .Stop :: cs, s, t => applyCalls cs (s.Stop t).1 (s.Stop t).2
  | .GracefulStop :: cs, s, t => applyCalls cs (s.GracefulStop t).1 (s.GracefulStop t).2

/-- The `for` loop of `Start`; the Boolean tells whether the loop was left (`break`). -/
def startLoop : List ServeRound → GRPCServer → List Event → GRPCServer × List Event × Bool
  | [], s, t => (s, t ++ [.serve], false)
  | r :: rounds, s, t =>
    match r.err with
    | some err =>
      if (applyCalls r.during s (t ++ [.serve])).1.stopped then
        ((applyCalls r.during s (t ++ [.serve])).1, (applyCalls r.during s (t ++ [.serve])).2, true)
      else
        startLoop rounds (applyCalls r.during s (t ++ [.serve])).1
          ((applyCalls r.during s (t ++ [.serve])).2 ++ [.logServeFailed err, .sleep 5])
    | none =>
      startLoop rounds (applyCalls r.during s (t ++ [.serve])).1
        (applyCalls r.during s (t ++ [.serve])).2

/-- Go `func (s *GRPCServer) Start()`. -/
def GRPCServer.Start (s : GRPCServer) (rounds : List ServeRound) (t : List Event) :
    GRPCServer × List Event × Bool :=
  startLoop rounds { s with stopped := false } t

/-! ## Measures on traces and reachable states -/

/-- The outcome of the dial function of a carrier (`unix` or TCP) as a function of the
answers in `env`; `newGRPCClientUnix_eq` and `newGRPCClientTCP_eq` relate it to the code. -/
def Env.dial (env : Env) (unix : Bool) : Except Error ClientConn :=
  if unix then env.dialContext
  else match env.readFile with
    | some err => .error err
    | none =>
      match env.loadX509KeyPair with
      | some err => .error err
      | none => env.dialContext

/-- Number of dial-function calls in a trace. -/
def dials (t : List Event) : Nat :=
  (t.filter fun e => match e with
    | .newGRPCClient _ _ _ _ => true
    | _ => false).length

/-- Number of calls of the caller-supplied compatibility function in a trace. -/
def compatCalls (t : List Event) : Nat :=
  (t.filter fun e => match e with
    | .isCompressed _ => true
    | _ => false).length

/-- Number of `cb.Shutdown()` calls in a trace. -/
def callbackCalls (t : List Event) : Nat :=
  (t.filter fun e => match e with
    | .cbShutdown _ => true
    | _ => false).length

/-- Number of runs of `GRPCClient.shutdown` in a trace (one head line per run). -/
def shutdownRuns (t : List Event) : Nat :=
  (t.filter fun e => match e with
    | .logShutdown _ => true
    | _ => false).length

/-- Registry states reachable from the empty registry by registry calls (whether they return
or panic) and by terminal handling of any handle. -/
inductive Reachable : World → Prop
  | empty : Reachable World.empty
  | register (w : World) (key endpoint : String) (autoRemove : Bool)
      (create : Option CreateService) :
      Reachable w → Reachable (CreateGRPCClient key endpoint autoRemove create w).1
  | unregister (w : World) (key : String) :
      Reachable w → Reachable (DeleteGRPCClient key w).1
  | acquire (w : World) (env : Env) (key : String) (isCompressed : Option IsCompressedFunc)
      (cb : GRPCCallback) :
      Reachable w → Reachable (GetGRPCClient env key isCompressed cb w).1
  | shutdown (w : World) (c : GRPCClient) :
      Reachable w → Reachable (c.shutdown w)

/-! ## Example inputs -/

/-- An environment in which certificates load, the dial yields connection 7 and the peer
answers "compressed". -/
def okEnv : Env := ⟨1, none, none, .ok ⟨7⟩, (some true, none)⟩

/-- An environment in which the dial yields connection 8. -/
def okEnv2 : Env := ⟨2, none, none, .ok ⟨8⟩, (some true, none)⟩

/-- An environment in which `grpc.DialContext` fails. -/
def failEnv : Env := ⟨3, none, none, .error "refused", (none, some "refused")⟩

/-- A stub constructor returning stub 3. -/
def mkStub : CreateService := fun _ => .returns (some 3)

/-- The registry after `CreateGRPCClient("k", "10.0.0.5:8080", false, mkStub)`. -/
def registered : World :=
  (CreateGRPCClient "k" "10.0.0.5:8080" false (some mkStub) World.empty).1

/-- The entry that `registered` holds under "k". -/
def entryK : grpcClient :=
  ⟨"k", "10.0.0.5:8080", false, false, none, none, none, some mkStub⟩

/-- The handle dialled by the first `GetGRPCClient("k", nil, cb 9)`. -/
def handle7 : GRPCClient := ⟨some ⟨7⟩, "10.0.0.5:8080", "k", some 9⟩

/-- The registry after a first successful `GetGRPCClient("k", nil, cb 9)`. -/
def connected : World := (GetGRPCClient okEnv "k" none (some 9) registered).1

/-- The entry that `connected` holds under "k". -/
def entryKLive : grpcClient :=
  ⟨"k", "10.0.0.5:8080", false, false, some handle7, some 1, some 3, some mkStub⟩

/-- The registry after the watchdog of `handle7` ran its terminal handling. -/
def disconnected : World := handle7.shutdown connected

/-- The registry after `DeleteGRPCClient("k")` and a second registration of "k". -/
def reRegistered : World :=
  (CreateGRPCClient "k" "10.0.0.5:8080" false (some mkStub) (DeleteGRPCClient "k" connected).1).1

/-- The handle dialled by `GetGRPCClient("k", nil, nil)` after the second registration. -/
def handle8 : GRPCClient := ⟨some ⟨8⟩, "10.0.0.5:8080", "k", none⟩

/-- The registry after "k" was acquired again: its entry holds `handle8`. -/
def reconnected : World := (GetGRPCClient okEnv2 "k" none none reRegistered).1

/-- The entry that `reconnected` holds under "k". -/
def entryKLive2 : grpcClient :=
  ⟨"k", "10.0.0.5:8080", false, false, some handle8, some 2, some 3, some mkStub⟩

/-- The registry after "k" was registered with auto-remove and never acquired. -/
def registeredAuto : World :=
  (CreateGRPCClient "k" "10.0.0.5:8080" true (some mkStub) (DeleteGRPCClient "k" connected).1).1

/-- The registry after `DeleteGRPCClient("k")` on `connected`: the context of `handle7` is
cancelled and its connection closed. -/
def unregistered : World := (DeleteGRPCClient "k" connected).1

/-- The registry after "n" was registered with a nil stub constructor. -/
def registeredNil : World := (CreateGRPCClient "n" "10.0.0.5:8080" false none World.empty).1

/-! ## Watchdog runs -/

/-- The trace after the watchdog logged each of the states `ss` in turn. -/
def logStates (ss : List connectivity.State) (w : World) : World :=
  ss.foldl (fun w s => w.emit (.logConnState s)) w

end Cluster

namespace Cluster

/-! ## Basic facts -/

@[simp] theorem emit_clientMap (w : World) (e : Event) : (w.emit e).clientMap = w.clientMap := rfl

@[simp] theorem emit_trace (w : World) (e : Event) : (w.emit e).trace = w.trace ++ [e] := rfl

@[simp] theorem store_trace (w : World) (k : String) (s : grpcClient) :
    (w.store k s).trace = w.trace := rfl

@[simp] theorem delete_trace (w : World) (k : String) : (w.delete k).trace = w.trace := rfl

@[simp] theorem store_clientMap (w : World) (k : String) (s : grpcClient) (k2 : String) :
    (w.store k s).clientMap k2 = if k2 = k then some s else w.clientMap k2 := rfl

@[simp] theorem delete_clientMap (w : World) (k : String) (k2 : String) :
    (w.delete k).clientMap k2 = if k2 = k then none else w.clientMap k2 := rfl

@[simp] theorem Close_clientMap (c : GRPCClient) (w : World) :
    (c.Close w).clientMap = w.clientMap := by
  unfold GRPCClient.Close
  cases c.conn <;> rfl

theorem newGRPCClientUnix_eq (env : Env) (ctx : CancelFunc) (key ep : String) (cb : GRPCCallback)
    (compress : Bool) (w : World) :
    newGRPCClientUnix env ctx key ep cb compress w =
      match env.dial true with
      | .error err => (w.emit (.newGRPCClient true key ep compress), .error err)
      | .ok conn => ((w.emit (.newGRPCClient true key ep compress)).emit (.goMonitor conn ctx),
          .ok ⟨some conn, ep, key, cb⟩) := by
  unfold newGRPCClientUnix Env.dial
  cases env.dialContext <;> rfl

theorem newGRPCClientTCP_eq (env : Env) (ctx : CancelFunc) (key ep : String) (cb : GRPCCallback)
    (compress : Bool) (w : World) :
    newGRPCClientTCP env ctx key ep cb compress w =
      match env.dial false with
      | .error err => (w.emit (.newGRPCClient false key ep compress), .error err)
      | .ok conn => ((w.emit (.newGRPCClient false key ep compress)).emit (.goMonitor conn ctx),
          .ok ⟨some conn, ep, key, cb⟩) := by
  unfold newGRPCClientTCP Env.dial
  cases env.readFile <;> cases env.loadX509KeyPair <;> cases env.dialContext <;> rfl

theorem newClient_error (env : Env) (s : grpcClient) (cb : GRPCCallback) (compress : Bool)
    (w : World) (err : Error) (h : env.dial s.unix = .error err) :
    newClient env s cb compress w =
      ((w.emit (.newGRPCClient s.unix s.key s.endpoint compress)).emit
        (.logDialFailed s.endpoint err), s, .returns (some err)) := by
  unfold newClient
  cases hu : s.unix <;> rw [hu] at h <;>
    simp [newGRPCClientUnix_eq, newGRPCClientTCP_eq, h]

theorem newClient_ok (env : Env) (s : grpcClient) (cb : GRPCCallback) (compress : Bool)
    (w : World) (conn : ClientConn) (h : env.dial s.unix = .ok conn) :
    newClient env s cb compress w =
      (((w.emit (.newGRPCClient s.unix s.key s.endpoint compress)).emit
          (.goMonitor conn env.ctx)).emit (.create (some conn)),
        match callCreate s.create (some conn) with
        | .returns v =>
          ({ s with client := some ⟨some conn, s.endpoint, s.key, cb⟩, cancel := some env.ctx,
                    service := v }, .returns none)
        | .panics =>
          ({ s with client := some ⟨some conn, s.endpoint, s.key, cb⟩, cancel := some env.ctx },
            .panics)) := by
  unfold newClient
  cases hu : s.unix <;> rw [hu] at h <;>
    cases hcr : callCreate s.create (some conn) <;>
    simp [newGRPCClientUnix_eq, newGRPCClientTCP_eq, h, GRPCClient.GetClient, hcr]

theorem GetGRPCClient_error (env : Env) (key : String) (f : Option IsCompressedFunc)
    (cb : GRPCCallback) (w : World) (s : grpcClient) (err : Error)
    (h : w.clientMap key = some s) (hc : s.client = none) (hd : env.dial s.unix = .error err) :
    (GetGRPCClient env key f cb w).2 = .returns (none, some err) ∧
    (GetGRPCClient env key f cb w).1.clientMap = w.clientMap ∧
    dials (GetGRPCClient env key f cb w).1.trace = dials w.trace + 1 ∧
    callbackCalls (GetGRPCClient env key f cb w).1.trace = callbackCalls w.trace := by
  unfold GetGRPCClient
  cases f <;>
    simp [h, hc, newClient_error _ _ _ _ _ _ hd, dials, callbackCalls, List.filter_append]

/-- The slow path of `GetGRPCClient` on a dial that succeeds: the new handle and its cancel
function are stored in the entry; the stub is stored and returned when the constructor
returns, and the call panics when the constructor does. -/
theorem GetGRPCClient_ok (env : Env) (key : String) (f : Option IsCompressedFunc)
    (cb : GRPCCallback) (w : World) (s : grpcClient) (conn : ClientConn)
    (h : w.clientMap key = some s) (hc : s.client = none) (hd : env.dial s.unix = .ok conn) :
    (GetGRPCClient env key f cb w).2 =
      (match callCreate s.create (some conn) with
        | .returns v => .returns (v, none)
        | .panics => .panics) ∧
    (∀ k, (GetGRPCClient env key f cb w).1.clientMap k =
      if k = key then
        some (match callCreate s.create (some conn) with
          | .returns v =>
            { s with client := some ⟨some conn, s.endpoint, s.key, cb⟩, cancel := some env.ctx,
                     service := v }
          | .panics =>
            { s with client := some ⟨some conn, s.endpoint, s.key, cb⟩,
                     cancel := some env.ctx })
      else w.clientMap k) ∧
    dials (GetGRPCClient env key f cb w).1.trace = dials w.trace + 1 := by
  unfold GetGRPCClient
  cases f <;> cases hcr : callCreate s.create (some conn) <;>
    simp [h, hc, newClient_ok _ _ _ _ _ _ hd, dials, List.filter_append, hcr]

theorem GetGRPCClient_slow_dials (env : Env) (key : String) (f : Option IsCompressedFunc)
    (cb : GRPCCallback) (w : World) (s : grpcClient)
    (h : w.clientMap key = some s) (hc : s.client = none) :
    dials (GetGRPCClient env key f cb w).1.trace = dials w.trace + 1 := by
  cases hd : env.dial s.unix with
  | error err => exact (GetGRPCClient_error env key f cb w s err h hc hd).2.2.1
  | ok conn => exact (GetGRPCClient_ok env key f cb w s conn h hc hd).2.2

theorem shutdown_clientMap (c : GRPCClient) (w : World) (k : String) :
    (c.shutdown w).clientMap k =
      if k = c.key then
        match w.clientMap c.key with
        | none => none
        | some s => if s.autoRemove then none else some { s with client := none }
      else w.clientMap k := by
  unfold GRPCClient.shutdown
  cases hm : w.clientMap c.key with
  | none =>
    cases c.cb <;> by_cases hk : k = c.key <;> simp [hm, hk]
  | some s =>
    obtain ⟨sk, se, sa, su, scl, sca, ss, scr⟩ := s
    cases c.cb <;> cases scl <;> cases sa <;> by_cases hk : k = c.key <;> simp [hm, hk]

theorem shutdown_trace (c : GRPCClient) (w : World) :
    (c.shutdown w).trace =
      w.trace ++ [.logShutdown c.server] ++
        (match w.clientMap c.key with
          | some s =>
            match s.client with
            | some cl =>
              match cl.conn with
              | some conn => [.connClose conn]
              | none => []
            | none => []
          | none => []) ++
        (match c.cb with
          | some cb => [.cbShutdown cb]
          | none => []) := by
  unfold GRPCClient.shutdown
  cases hm : w.clientMap c.key with
  | none => cases c.cb <;> simp [hm]
  | some s =>
    obtain ⟨sk, se, sa, su, scl, sca, ss, scr⟩ := s
    cases hcb : c.cb <;> cases scl with
    | none => cases sa <;> simp [hm]
    | some cl =>
      cases hcl : cl.conn <;> cases sa <;> simp [hm, GRPCClient.Close, hcl]

theorem shutdownRuns_shutdown (c : GRPCClient) (w : World) :
    shutdownRuns (c.shutdown w).trace = shutdownRuns w.trace + 1 := by
  rw [shutdown_trace]
  rcases w.clientMap c.key with _ | ⟨sk, se, sa, su, _ | ⟨_ | conn, cs, ck, ccb⟩, sca, ss, scr⟩ <;>
    cases c.cb <;> simp [shutdownRuns, List.filter_append]

theorem callbackCalls_shutdown (c : GRPCClient) (w : World) :
    callbackCalls (c.shutdown w).trace
      = callbackCalls w.trace + (if c.cb = none then 0 else 1) := by
  rw [shutdown_trace]
  rcases w.clientMap c.key with _ | ⟨sk, se, sa, su, _ | ⟨_ | conn, cs, ck, ccb⟩, sca, ss, scr⟩ <;>
    cases c.cb <;> simp [callbackCalls, List.filter_append]

/-- An entry found after `DeleteGRPCClient` was there before, unchanged. -/
theorem DeleteGRPCClient_clientMap (key : String) (w : World) (k : String) (s : grpcClient)
    (h : (DeleteGRPCClient key w).1.clientMap k = some s) : w.clientMap k = some s := by
  unfold DeleteGRPCClient at h
  rcases hm : w.clientMap key with _ | ⟨sk, se, sa, su, _ | cl, _ | ca, ss, scr⟩ <;>
    simp [hm] at h <;> first | exact h | exact h.2

/-- In a reachable state every entry is stored under its own key, and an entry that holds a
handle holds the handle dialled for it, a cancel function, and, when its constructor returns
for the connection of the handle, the stub that the constructor returns. -/
theorem reachable_inv (w : World) (hw : Reachable w) :
    ∀ k s, w.clientMap k = some s →
      s.key = k ∧
      ∀ c, s.client = some c →
        c.key = k ∧ c.server = s.endpoint ∧
        (∀ v, callCreate s.create c.GetClient = .returns v → s.service = v) ∧
        s.cancel ≠ none ∧ c.conn ≠ none := by
  induction hw with
  | empty => intro k s h; simp [World.empty] at h
  | register w key endpoint autoRemove create _ ih =>
    intro k s h
    unfold CreateGRPCClient at h
    cases hm : w.clientMap key with
    | some s0 => simp [hm] at h; exact ih k s h
    | none =>
      simp [hm] at h
      by_cases hk : k = key
      · simp [hk] at h
        subst h
        subst hk
        cases isUnixSocketEndpoint endpoint <;> simp
      · simp [hk] at h
        exact ih k s h
  | unregister w key _ ih =>
    intro k s h
    exact ih k s (DeleteGRPCClient_clientMap key w k s h)
  | acquire w env key f cb _ ih =>
    intro k s h
    cases hm : w.clientMap key with
    | none =>
      unfold GetGRPCClient at h
      simp [hm] at h
      exact ih k s h
    | some s0 =>
      cases hc : s0.client with
      | some c0 =>
        unfold GetGRPCClient at h
        simp [hm, hc] at h
        exact ih k s h
      | none =>
        cases hd : env.dial s0.unix with
        | error err =>
          rw [(GetGRPCClient_error env key f cb w s0 err hm hc hd).2.1] at h
          exact ih k s h
        | ok conn =>
          rw [(GetGRPCClient_ok env key f cb w s0 conn hm hc hd).2.1 k] at h
          by_cases hk : k = key
          · simp [hk] at h
            subst hk
            have hkey := (ih k s0 hm).1
            cases hcr : callCreate s0.create (some conn) with
            | returns v =>
              rw [hcr] at h
              subst h
              simp [hkey, GRPCClient.GetClient, hcr]
            | panics =>
              rw [hcr] at h
              subst h
              simp [hkey, GRPCClient.GetClient, hcr]
          · simp [hk] at h
            exact ih k s h
  | shutdown w c _ ih =>
    intro k s h
    rw [shutdown_clientMap] at h
    by_cases hk : k = c.key
    · simp [hk] at h
      cases hm : w.clientMap c.key with
      | none => simp [hm] at h
      | some s0 =>
        simp [hm] at h
        obtain ⟨_, h⟩ := h
        subst h
        subst hk
        have := (ih c.key s0 hm).1
        simp [this]
    · simp [hk] at h
      exact ih k s h

/-! ## Claims -/

/-- C3. Duplicate registration: when `key` is already in the registry, `CreateGRPCClient`
returns the error "Client exists" and leaves the whole state as it was, so the entry under
`key` is still the first registration's entry, field for field, and
`GetGRPCClientEndpoint` still returns its endpoint. -/
theorem CreateGRPCClient_duplicate (w : World) (key endpoint : String) (autoRemove : Bool)
    (create : Option CreateService) (s : grpcClient) (h : w.clientMap key = some s) :
    CreateGRPCClient key endpoint autoRemove create w = (w, some "Client exists") ∧
    (CreateGRPCClient key endpoint autoRemove create w).1.clientMap key = some s ∧
    GetGRPCClientEndpoint key (CreateGRPCClient key endpoint autoRemove create w).1
      = s.endpoint := by
  have e : CreateGRPCClient key endpoint autoRemove create w = (w, some "Client exists") := by
    unfold CreateGRPCClient
    simp [h]
  rw [e]
  refine ⟨rfl, h, ?_⟩
  unfold GetGRPCClientEndpoint
  simp [h]

/-- C3 at a concrete input: registering "k" a second time, with another endpoint, flag and
constructor. -/
theorem CreateGRPCClient_duplicate_witness :
    registered.clientMap "k" = some entryK ∧
    CreateGRPCClient "k" "/var/run/agent.sock" true (some fun _ => .returns none) registered
      = (registered, some "Client exists") ∧
    GetGRPCClientEndpoint "k"
      (CreateGRPCClient "k" "/var/run/agent.sock" true (some fun _ => .returns none)
        registered).1
      = "10.0.0.5:8080" :=
  ⟨rfl,
    (CreateGRPCClient_duplicate registered "k" "/var/run/agent.sock" true
      (some fun _ => .returns none) entryK rfl).1,
    (CreateGRPCClient_duplicate registered "k" "/var/run/agent.sock" true
      (some fun _ => .returns none) entryK rfl).2.2⟩

/-- C2. Connection caching: (1) when the entry under `key` holds a handle, `GetGRPCClient`
returns the entry's cached stub and no error and leaves the state, trace included, as it was:
no dial, no call of the compatibility function, no change of the registry; (2) when the entry
holds no handle and a first `GetGRPCClient` returns a stub and no error, a second
`GetGRPCClient` on the same key returns the same stub and no error, changes nothing, and the
two calls together made exactly one dial. -/
theorem GetGRPCClient_cached :
    (∀ (env : Env) (key : String) (f : Option IsCompressedFunc) (cb : GRPCCallback) (w : World)
        (s : grpcClient) (c : GRPCClient),
        w.clientMap key = some s → s.client = some c →
        GetGRPCClient env key f cb w = (w, .returns (s.service, none)) ∧
        dials (GetGRPCClient env key f cb w).1.trace = dials w.trace ∧
        compatCalls (GetGRPCClient env key f cb w).1.trace = compatCalls w.trace) ∧
    (∀ (env1 env2 : Env) (key : String) (f1 f2 : Option IsCompressedFunc)
        (cb1 cb2 : GRPCCallback) (w : World) (s : grpcClient) (stub : Service),
        w.clientMap key = some s → s.client = none →
        (GetGRPCClient env1 key f1 cb1 w).2 = .returns (stub, none) →
        GetGRPCClient env2 key f2 cb2 (GetGRPCClient env1 key f1 cb1 w).1
          = ((GetGRPCClient env1 key f1 cb1 w).1, .returns (stub, none)) ∧
        dials (GetGRPCClient env2 key f2 cb2 (GetGRPCClient env1 key f1 cb1 w).1).1.trace
          = dials w.trace + 1) := by
  have fast : ∀ (env : Env) (key : String) (f : Option IsCompressedFunc) (cb : GRPCCallback)
      (w : World) (s : grpcClient) (c : GRPCClient),
      w.clientMap key = some s → s.client = some c →
      GetGRPCClient env key f cb w = (w, .returns (s.service, none)) := by
    intro env key f cb w s c h hc
    unfold GetGRPCClient
    simp [h, hc]
  refine ⟨fun env key f cb w s c h hc => ?_, ?_⟩
  · rw [fast env key f cb w s c h hc]
    exact ⟨rfl, rfl, rfl⟩
  intro env1 env2 key f1 f2 cb1 cb2 w s stub h hc hok
  cases hd : env1.dial s.unix with
  | error err =>
    have := (GetGRPCClient_error env1 key f1 cb1 w s err h hc hd).1
    rw [this] at hok
    simp at hok
  | ok conn =>
    obtain ⟨h1, h2, h3⟩ := GetGRPCClient_ok env1 key f1 cb1 w s conn h hc hd
    cases hcr : callCreate s.create (some conn) with
    | panics =>
      rw [h1, hcr] at hok
      simp at hok
    | returns v =>
      rw [h1, hcr] at hok
      simp at hok
      subst hok
      have hk := (h2 key).trans (if_pos rfl)
      rw [hcr] at hk
      have e := fast env2 key f2 cb2 _ _ _ hk rfl
      rw [e]
      exact ⟨rfl, h3⟩

/-- C2 at a concrete input: a second acquire of "k" in `connected`, and the two acquires
from `registered`. -/
theorem GetGRPCClient_cached_witness :
    GetGRPCClient failEnv "k" (some fun _ => false) none connected
      = (connected, .returns (some 3, none)) ∧
    dials (GetGRPCClient failEnv "k" (some fun _ => false) none
      (GetGRPCClient okEnv "k" none (some 9) registered).1).1.trace = dials registered.trace + 1 :=
  ⟨(GetGRPCClient_cached.1 failEnv "k" (some fun _ => false) none connected entryKLive handle7
      rfl rfl).1,
    (GetGRPCClient_cached.2 okEnv failEnv "k" none (some fun _ => false) (some 9) none registered
      entryK (some 3) rfl rfl rfl).2⟩

theorem reachable_registered : Reachable registered :=
  Reachable.register _ "k" "10.0.0.5:8080" false (some mkStub) Reachable.empty

theorem reachable_connected : Reachable connected :=
  Reachable.acquire _ okEnv "k" none (some 9) reachable_registered

theorem reachable_disconnected : Reachable disconnected :=
  Reachable.shutdown _ handle7 reachable_connected

theorem reachable_reconnected : Reachable reconnected :=
  Reachable.acquire _ okEnv2 "k" none none
    (Reachable.register _ "k" "10.0.0.5:8080" false (some mkStub)
      (Reachable.unregister _ "k" reachable_connected))

theorem reachable_registeredAuto : Reachable registeredAuto :=
  Reachable.register _ "k" "10.0.0.5:8080" true (some mkStub)
    (Reachable.unregister _ "k" reachable_connected)

/-- A nil constructor: `GetGRPCClient` on the entry of `registeredNil` dials, stores the new
handle and its cancel function in the entry, and panics at the call of the constructor; the
entry is left with a handle and no stub, and the next `GetGRPCClient` returns that nil stub
with no error. -/
theorem GetGRPCClient_nil_constructor :
    (GetGRPCClient okEnv "n" none none registeredNil).2 = .panics ∧
    (∃ s, (GetGRPCClient okEnv "n" none none registeredNil).1.clientMap "n" = some s ∧
      s.client = some ⟨some ⟨7⟩, "10.0.0.5:8080", "n", none⟩ ∧ s.cancel = some 1 ∧
      s.service = none) ∧
    (GetGRPCClient okEnv2 "n" none none (GetGRPCClient okEnv "n" none none registeredNil).1).2
      = .returns (none, none) :=
  ⟨rfl, ⟨_, rfl, rfl, rfl, rfl⟩, rfl⟩

/-- C1, as stated, fails: after register, acquire and the handle's terminal handling, the
reachable state `disconnected` has an entry under "k" whose handle is absent while its
cached stub is still present. -/
theorem pool_entry_both_or_neither_counterexample :
    Reachable disconnected ∧
    ∃ s, disconnected.clientMap "k" = some s ∧ s.client = none ∧ s.service = some 3 :=
  ⟨reachable_disconnected, _, rfl, rfl, rfl⟩

/-- C1, amended. In every reachable state, for every entry: (1) if the entry holds a handle
and its constructor returns for the connection of that handle, the cached stub is the value
the constructor returns (handle and stub are set together on a connect whose constructor
returns); (2) terminal handling of any handle leaves the entry's cached stub as it was and
clears the handle of the entry under the handle's key; (3) while the entry holds no handle,
`GetGRPCClient` does not return the cached-stub field: it returns the dial error and no stub
when the dial fails, returns the value the constructor returns for the new connection when
the dial succeeds, and panics when the constructor is nil or panics. -/
theorem pool_entry_handle_has_stub (w : World) (hw : Reachable w) (key : String) (s : grpcClient)
    (h : w.clientMap key = some s) :
    (∀ c v, s.client = some c → callCreate s.create c.GetClient = .returns v → s.service = v) ∧
    (∀ (c : GRPCClient) (s2 : grpcClient), (c.shutdown w).clientMap key = some s2 →
      s2.service = s.service ∧ (c.key = key → s2.client = none)) ∧
    (s.client = none →
      ∀ (env : Env) (f : Option IsCompressedFunc) (cb : GRPCCallback),
        (GetGRPCClient env key f cb w).2 =
          match env.dial s.unix with
          | .error err => .returns (none, some err)
          | .ok conn =>
            match callCreate s.create (some conn) with
            | .returns v => .returns (v, none)
            | .panics => .panics) := by
  refine ⟨fun c v hc hv => ((reachable_inv w hw key s h).2 c hc).2.2.1 v hv, ?_, ?_⟩
  · intro c s2 h2
    rw [shutdown_clientMap] at h2
    by_cases hk : key = c.key
    · subst hk
      simp [h] at h2
      obtain ⟨_, h2⟩ := h2
      subst h2
      simp
    · simp [hk] at h2
      rw [h] at h2
      cases h2
      exact ⟨rfl, fun e => absurd e.symm hk⟩
  · intro hc env f cb
    cases hd : env.dial s.unix with
    | error err => exact (GetGRPCClient_error env key f cb w s err h hc hd).1
    | ok conn => exact (GetGRPCClient_ok env key f cb w s conn h hc hd).1

/-- C1, amended, at concrete inputs: the live entry of `connected`, whose stub is the value
its constructor returns, and the entry of `disconnected`, which holds no handle and the old
stub 3, on which an acquire with a failing dial returns no stub. -/
theorem pool_entry_handle_has_stub_witness :
    Reachable connected ∧ connected.clientMap "k" = some entryKLive ∧
    entryKLive.service = some 3 ∧
    (GetGRPCClient failEnv "k" none none disconnected).2 = .returns (none, some "refused") :=
  ⟨reachable_connected, rfl,
    (pool_entry_handle_has_stub connected reachable_connected "k" entryKLive rfl).1
      handle7 (some 3) rfl rfl,
    (pool_entry_handle_has_stub disconnected reachable_disconnected "k"
      ⟨"k", "10.0.0.5:8080", false, false, none, some 1, some 3, some mkStub⟩ rfl).2.2 rfl
      failEnv none none⟩

/-- C4, as stated, fails: in the reachable state `disconnected` the entry under "k" has no
handle, the dial fails, `GetGRPCClient` returns the dial error and no stub, and the entry is
left with no handle but with its cached stub present. -/
theorem dial_failure_stub_absent_counterexample :
    Reachable disconnected ∧
    (∃ s, disconnected.clientMap "k" = some s ∧ s.client = none ∧
      failEnv.dial s.unix = .error "refused") ∧
    (GetGRPCClient failEnv "k" none none disconnected).2 = .returns (none, some "refused") ∧
    ∃ s2, (GetGRPCClient failEnv "k" none none disconnected).1.clientMap "k" = some s2 ∧
      s2.client = none ∧ s2.service = some 3 :=
  ⟨reachable_disconnected, ⟨_, rfl, rfl, rfl⟩, rfl, _, rfl, rfl, rfl⟩

/-- C4, amended. When the entry under `key` holds no handle and the dial fails with `err`,
`GetGRPCClient` returns `err` and no stub and the registry is unchanged: the entry is still
the same entry, with no handle and with its cached-stub field as it was before the call, and a
following `GetGRPCClient` on the key dials again. The failed call itself made one dial. -/
theorem GetGRPCClient_dial_failure (env : Env) (key : String) (f : Option IsCompressedFunc)
    (cb : GRPCCallback) (w : World) (s : grpcClient) (err : Error)
    (h : w.clientMap key = some s) (hc : s.client = none) (hd : env.dial s.unix = .error err) :
    (GetGRPCClient env key f cb w).2 = .returns (none, some err) ∧
    (GetGRPCClient env key f cb w).1.clientMap = w.clientMap ∧
    (GetGRPCClient env key f cb w).1.clientMap key = some s ∧
    dials (GetGRPCClient env key f cb w).1.trace = dials w.trace + 1 ∧
    ∀ (env2 : Env) (f2 : Option IsCompressedFunc) (cb2 : GRPCCallback),
      dials (GetGRPCClient env2 key f2 cb2 (GetGRPCClient env key f cb w).1).1.trace
        = dials (GetGRPCClient env key f cb w).1.trace + 1 := by
  obtain ⟨h1, h2, h3, _⟩ := GetGRPCClient_error env key f cb w s err h hc hd
  have h4 : (GetGRPCClient env key f cb w).1.clientMap key = some s := by rw [h2]; exact h
  exact ⟨h1, h2, h4, h3, fun env2 f2 cb2 => GetGRPCClient_slow_dials env2 key f2 cb2 _ s h4 hc⟩

/-- C4, amended, at a concrete input: a failing dial for the never-connected entry of
`registered`. -/
theorem GetGRPCClient_dial_failure_witness :
    registered.clientMap "k" = some entryK ∧ entryK.client = none ∧
    failEnv.dial entryK.unix = .error "refused" ∧
    (GetGRPCClient failEnv "k" none none registered).2 = .returns (none, some "refused") ∧
    (GetGRPCClient failEnv "k" none none registered).1.clientMap = registered.clientMap :=
  ⟨rfl, rfl, rfl,
    (GetGRPCClient_dial_failure failEnv "k" none none registered entryK "refused"
      rfl rfl rfl).1,
    (GetGRPCClient_dial_failure failEnv "k" none none registered entryK "refused"
      rfl rfl rfl).2.1⟩

/-- C5. Disconnect with auto-remove: in a reachable state, when the entry under `key` holds
the handle `c` and `c` was dialled with the callback `cb`, one run of `c.shutdown` leaves the
key absent if the entry is auto-remove; otherwise it leaves the entry present with the same
endpoint and no handle, so that the next `GetGRPCClient` on the key dials again. In both
cases the run makes exactly one callback call, the call of `cb`, as its last effect. -/
theorem shutdown_of_live_entry (w : World) (hw : Reachable w) (key : String) (s : grpcClient)
    (c : GRPCClient) (cb : Nat) (h : w.clientMap key = some s) (hc : s.client = some c)
    (hcb : c.cb = some cb) :
    (if s.autoRemove = true then (c.shutdown w).clientMap key = none
     else ∃ s2, (c.shutdown w).clientMap key = some s2 ∧ s2.endpoint = s.endpoint ∧
        s2.client = none ∧
        ∀ (env : Env) (f : Option IsCompressedFunc) (cb2 : GRPCCallback),
          dials (GetGRPCClient env key f cb2 (c.shutdown w)).1.trace
            = dials (c.shutdown w).trace + 1) ∧
    callbackCalls (c.shutdown w).trace = callbackCalls w.trace + 1 ∧
    (c.shutdown w).trace.getLast? = some (.cbShutdown cb) := by
  have hkey : c.key = key := ((reachable_inv w hw key s h).2 c hc).1
  subst hkey
  refine ⟨?_, ?_, ?_⟩
  · by_cases ha : s.autoRemove = true
    · rw [if_pos ha, shutdown_clientMap]
      simp [h, ha]
    · rw [if_neg ha]
      have hm : (c.shutdown w).clientMap c.key = some { s with client := none } := by
        rw [shutdown_clientMap]
        simp [h, ha]
      exact ⟨_, hm, rfl, rfl, fun env f cb2 =>
        GetGRPCClient_slow_dials env c.key f cb2 _ _ hm rfl⟩
  · rw [callbackCalls_shutdown]
    simp [hcb]
  · rw [shutdown_trace]
    simp only [hcb]
    exact List.getLast?_concat _

/-- C5 at a concrete input: terminal handling of `handle7` in `connected`. -/
theorem shutdown_of_live_entry_witness :
    Reachable connected ∧ connected.clientMap "k" = some entryKLive ∧
    entryKLive.client = some handle7 ∧ handle7.cb = some 9 ∧
    callbackCalls (handle7.shutdown connected).trace = callbackCalls connected.trace + 1 :=
  ⟨reachable_connected, rfl, rfl, rfl,
    (shutdown_of_live_entry connected reachable_connected "k" entryKLive handle7 9
      rfl rfl rfl).2.1⟩

/-- C10, as stated, fails. In the reachable state `reconnected` the entry under "k" holds
`handle8`; the stale handle `handle7`, dialled for "k" before the key was unregistered and
registered again, is a different handle, and its terminal handling closes the connection of
`handle8` and clears it from the entry. And in the reachable state `registeredAuto`, where
the entry under "k" holds no handle, terminal handling of `handle7` deletes the entry. -/
theorem shutdown_other_handle_counterexample :
    Reachable reconnected ∧ reconnected.clientMap "k" = some entryKLive2 ∧
    entryKLive2.client = some handle8 ∧ handle8 ≠ handle7 ∧ handle7.key = "k" ∧
    (∃ s, (handle7.shutdown reconnected).clientMap "k" = some s ∧ s.client = none) ∧
    Event.connClose ⟨8⟩ ∈ (handle7.shutdown reconnected).trace ∧
    Reachable registeredAuto ∧
    (∃ s, registeredAuto.clientMap "k" = some s ∧ s.client = none) ∧
    (handle7.shutdown registeredAuto).clientMap "k" = none :=
  ⟨reachable_reconnected, rfl, rfl, by decide, rfl, ⟨_, rfl, rfl⟩, by decide,
    reachable_registeredAuto, ⟨_, rfl, rfl⟩, rfl⟩

/-- C10, amended. Terminal handling of a handle `h` acts on whatever entry is stored under
`h.key`, whichever handle that entry holds: entries under every other key are unchanged; if
`h.key` is absent the registry is unchanged; if the entry under `h.key` holds no handle and is
not auto-remove the registry is unchanged; in general the entry under `h.key` is deleted when
it is auto-remove and is otherwise kept with its handle cleared, and the connection of the
handle it held, if any, is closed. -/
theorem shutdown_registry_effect (h : GRPCClient) (w : World) :
    (∀ k, k ≠ h.key → (h.shutdown w).clientMap k = w.clientMap k) ∧
    (w.clientMap h.key = none → (h.shutdown w).clientMap = w.clientMap) ∧
    (∀ s, w.clientMap h.key = some s → s.client = none → s.autoRemove = false →
      (h.shutdown w).clientMap = w.clientMap) ∧
    (∀ s, w.clientMap h.key = some s →
      (h.shutdown w).clientMap h.key
        = if s.autoRemove then none else some { s with client := none }) ∧
    (∀ s cl conn, w.clientMap h.key = some s → s.client = some cl → cl.conn = some conn →
      Event.connClose conn ∈ (h.shutdown w).trace) := by
  refine ⟨?_, ?_, ?_, ?_, ?_⟩
  · intro k hk
    rw [shutdown_clientMap]
    simp [hk]
  · intro hn
    funext k
    rw [shutdown_clientMap]
    by_cases hk : k = h.key
    · simp [hk, hn]
    · simp [hk]
  · intro s hs hc ha
    funext k
    rw [shutdown_clientMap]
    by_cases hk : k = h.key
    · obtain ⟨sk, se, sa, su, scl, sca, ss, scr⟩ := s
      simp only at hc ha
      subst hc
      subst ha
      simp [hk, hs]
    · simp [hk]
  · intro s hs
    rw [shutdown_clientMap]
    simp [hs]
  · intro s cl conn hs hc hconn
    rw [shutdown_trace]
    simp [hs, hc, hconn]

/-- C10, amended, at concrete inputs: `handle7` in the empty registry, in `registered` and in
`reconnected`. -/
theorem shutdown_registry_effect_witness :
    (handle7.shutdown World.empty).clientMap = World.empty.clientMap ∧
    (handle7.shutdown registered).clientMap = registered.clientMap ∧
    Event.connClose ⟨8⟩ ∈ (handle7.shutdown reconnected).trace :=
  ⟨(shutdown_registry_effect handle7 World.empty).2.1 rfl,
    (shutdown_registry_effect handle7 registered).2.2.1 entryK rfl rfl rfl,
    (shutdown_registry_effect handle7 reconnected).2.2.2.2 entryKLive2 handle8 ⟨8⟩ rfl rfl rfl⟩

/-- C8. The compatibility probe fails closed: each probe returns `true` exactly when the dial
succeeded and the control RPC returned no error and a present response whose value is true.
In every other case (dial error, RPC error or timeout, missing response, explicit false) it
returns `false`; its result type has no error. Both probes return the same Boolean. -/
theorem probe_fail_closed (env : Env) (endpoint : String) (w : World) :
    ((IsControllerGRPCCommpressed env endpoint w).2 = true ↔
      (∃ conn, env.dial (isUnixSocketEndpoint endpoint) = .ok conn) ∧
        env.isGRPCCompressed = (some true, none)) ∧
    ((IsEnforcerGRPCCommpressed env endpoint w).2 = true ↔
      (∃ conn, env.dial (isUnixSocketEndpoint endpoint) = .ok conn) ∧
        env.isGRPCCompressed = (some true, none)) ∧
    (IsEnforcerGRPCCommpressed env endpoint w).2 = (IsControllerGRPCCommpressed env endpoint w).2 := by
  unfold IsControllerGRPCCommpressed IsEnforcerGRPCCommpressed
  rcases hr : env.isGRPCCompressed with ⟨_ | _ | _, _ | e⟩ <;>
    cases hu : isUnixSocketEndpoint endpoint <;>
    cases hd : env.dial true <;> cases hd2 : env.dial false <;>
    simp [newGRPCClientUnix_eq, newGRPCClientTCP_eq, hd, hd2, hr]

/-! ### Watchdog -/

/-- What one pass of the loop head does: it either ends the run after one run of terminal
handling, or stops for lack of observations, or hands on to the wait, in the last two cases
with the registry, the terminal-handling count and the callback count as they were. -/
theorem monitorHead_cases (c : GRPCClient) (s : connectivity.State)
    (states : List connectivity.State) (w : World) :
    (∃ w1, w1.clientMap = w.clientMap ∧ shutdownRuns w1.trace = shutdownRuns w.trace ∧
      callbackCalls w1.trace = callbackCalls w.trace ∧
      monitorHead c s states w = .inl (c.shutdown w1, .terminal)) ∨
    (∃ w1, w1.clientMap = w.clientMap ∧ shutdownRuns w1.trace = shutdownRuns w.trace ∧
      callbackCalls w1.trace = callbackCalls w.trace ∧
      monitorHead c s states w = .inl (w1, .running)) ∨
    (∃ w1 s1 states1, w1.clientMap = w.clientMap ∧
      shutdownRuns w1.trace = shutdownRuns w.trace ∧
      callbackCalls w1.trace = callbackCalls w.trace ∧
      monitorHead c s states w = .inr (s1, states1, w1)) := by
  unfold monitorHead
  by_cases h1 : s = .Shutdown
  · left
    exact ⟨w.emit (.logConnState s), rfl,
      by simp [shutdownRuns, List.filter_append], by simp [callbackCalls, List.filter_append],
      by simp [h1]⟩
  · by_cases h2 : s = .TransientFailure
    · cases states with
      | nil =>
        right; left
        exact ⟨(w.emit (.logConnState s)).emit (.sleep 1), rfl,
          by simp [shutdownRuns, List.filter_append],
          by simp [callbackCalls, List.filter_append], by simp [h2]⟩
      | cons r rest =>
        by_cases h3 : r = .Shutdown ∨ r = .TransientFailure
        · left
          exact ⟨(w.emit (.logConnState s)).emit (.sleep 1), rfl,
            by simp [shutdownRuns, List.filter_append],
            by simp [callbackCalls, List.filter_append], by simp [h2, h3]⟩
        · right; right
          exact ⟨(w.emit (.logConnState s)).emit (.sleep 1), r, rest, rfl,
            by simp [shutdownRuns, List.filter_append],
            by simp [callbackCalls, List.filter_append], by simp [h2, h3]⟩
    · right; right
      exact ⟨w.emit (.logConnState s), s, states, rfl,
        by simp [shutdownRuns, List.filter_append],
        by simp [callbackCalls, List.filter_append], by simp [h1, h2]⟩

theorem monitorWait_nil (c : GRPCClient) (ctx : Context) (s : connectivity.State)
    (states : List connectivity.State) (w : World) :
    monitorWait c ctx [] s states w = (w, .running) := rfl

theorem monitorWait_cons (c : GRPCClient) (ctx : Context) (changed : Bool) (changes : List Bool)
    (s : connectivity.State) (states : List connectivity.State) (w : World) :
    monitorWait c ctx (changed :: changes) s states w =
      match WaitForStateChange ctx s changed with
      | none => (w, .running)
      | some false => (w.emit .logMonitorCancelled, .cancelled)
      | some true =>
        match states with
        | [] => (w, .running)
        | s :: states =>
          match monitorHead c s states w with
          | .inl r => r
          | .inr (s, states, w) => monitorWait c ctx changes s states w := rfl

/-- A run entered at the wait runs terminal handling once if it exits as terminal, and
otherwise not at all, leaving registry and callback count untouched. -/
theorem monitorWait_runs (c : GRPCClient) (ctx : Context) (changes : List Bool) :
    ∀ (s : connectivity.State) (states : List connectivity.State) (w : World),
      shutdownRuns (monitorWait c ctx changes s states w).1.trace
        = shutdownRuns w.trace +
          (if (monitorWait c ctx changes s states w).2 = .terminal then 1 else 0) ∧
      ((monitorWait c ctx changes s states w).2 ≠ .terminal →
        (monitorWait c ctx changes s states w).1.clientMap = w.clientMap ∧
        callbackCalls (monitorWait c ctx changes s states w).1.trace = callbackCalls w.trace) := by
  induction changes with
  | nil => intro s states w; simp [monitorWait_nil]
  | cons ch rest ih =>
    intro s states w
    rw [monitorWait_cons]
    cases hwait : WaitForStateChange ctx s ch with
    | none => simp
    | some b =>
      cases b with
      | false => simp [shutdownRuns, callbackCalls, List.filter_append]
      | true =>
        cases states with
        | nil => simp
        | cons s1 states1 =>
          rcases monitorHead_cases c s1 states1 w with
            ⟨w1, hm, hs, hcb, he⟩ | ⟨w1, hm, hs, hcb, he⟩ | ⟨w1, s2, states2, hm, hs, hcb, he⟩
          · simp [he, shutdownRuns_shutdown, hs]
          · simp [he, hs, hm, hcb]
          · simp only [he]
            obtain ⟨i1, i2⟩ := ih s2 states2 w1
            refine ⟨by rw [i1, hs], fun hne => ?_⟩
            obtain ⟨j1, j2⟩ := i2 hne
            exact ⟨j1.trans hm, j2.trans hcb⟩

/-- The same for a run entered at the top of the loop. -/
theorem monitorLoop_runs (c : GRPCClient) (ctx : Context) (changes : List Bool)
    (s : connectivity.State) (states : List connectivity.State) (w : World) :
    shutdownRuns (monitorLoop c ctx changes s states w).1.trace
      = shutdownRuns w.trace +
        (if (monitorLoop c ctx changes s states w).2 = .terminal then 1 else 0) ∧
    ((monitorLoop c ctx changes s states w).2 ≠ .terminal →
      (monitorLoop c ctx changes s states w).1.clientMap = w.clientMap ∧
      callbackCalls (monitorLoop c ctx changes s states w).1.trace = callbackCalls w.trace) := by
  unfold monitorLoop
  rcases monitorHead_cases c s states w with
    ⟨w1, hm, hs, hcb, he⟩ | ⟨w1, hm, hs, hcb, he⟩ | ⟨w1, s2, states2, hm, hs, hcb, he⟩
  · simp [he, shutdownRuns_shutdown, hs]
  · simp [he, hs, hm, hcb]
  · simp only [he]
    obtain ⟨i1, i2⟩ := monitorWait_runs c ctx changes s2 states2 w1
    refine ⟨by rw [i1, hs], fun hne => ?_⟩
    obtain ⟨j1, j2⟩ := i2 hne
    exact ⟨j1.trans hm, j2.trans hcb⟩

/-- The same for a whole run of the watchdog. -/
theorem monitorGRPCConnectivity_runs (c : GRPCClient) (ctx : Context)
    (states : List connectivity.State) (changes : List Bool) (w : World) :
    shutdownRuns (c.monitorGRPCConnectivity ctx states changes w).1.trace
      = shutdownRuns w.trace +
        (if (c.monitorGRPCConnectivity ctx states changes w).2 = .terminal then 1 else 0) ∧
    ((c.monitorGRPCConnectivity ctx states changes w).2 ≠ .terminal →
      (c.monitorGRPCConnectivity ctx states changes w).1.clientMap = w.clientMap ∧
      callbackCalls (c.monitorGRPCConnectivity ctx states changes w).1.trace
        = callbackCalls w.trace) := by
  unfold GRPCClient.monitorGRPCConnectivity
  cases states with
  | nil => simp
  | cons s rest => exact monitorLoop_runs c ctx changes s rest w

theorem monitorGRPCConnectivity_cons (c : GRPCClient) (ctx : Context) (s : connectivity.State)
    (states : List connectivity.State) (changes : List Bool) (w : World) :
    c.monitorGRPCConnectivity ctx (s :: states) changes w
      = monitorLoop c ctx changes s states w := rfl

/-- After a wait that returned because the state changed, the watchdog reads the state again
and goes on exactly as a watchdog that starts with the remaining observations. -/
theorem monitorWait_changed (c : GRPCClient) (ctx : Context) (changes : List Bool)
    (s : connectivity.State) (states : List connectivity.State) (w : World) :
    monitorWait c ctx (true :: changes) s states w
      = c.monitorGRPCConnectivity ctx states changes w := by
  rw [monitorWait_cons]
  unfold GRPCClient.monitorGRPCConnectivity monitorLoop
  cases states <;> simp [WaitForStateChange]

/-- On a state that is neither Shutdown nor TransientFailure the loop logs it and waits. -/
theorem monitorLoop_other (c : GRPCClient) (ctx : Context) (changes : List Bool)
    (s : connectivity.State) (states : List connectivity.State) (w : World)
    (h1 : s ≠ .Shutdown) (h2 : s ≠ .TransientFailure) :
    monitorLoop c ctx changes s states w
      = monitorWait c ctx changes s states (w.emit (.logConnState s)) := by
  unfold monitorLoop monitorHead
  simp [h1, h2]

/-- On TransientFailure with a re-read that is neither Shutdown nor TransientFailure the loop
logs, sleeps one second and waits on the re-read state. -/
theorem monitorLoop_recovered (c : GRPCClient) (ctx : Context) (changes : List Bool)
    (r : connectivity.State) (states : List connectivity.State) (w : World)
    (h1 : r ≠ .Shutdown) (h2 : r ≠ .TransientFailure) :
    monitorLoop c ctx changes .TransientFailure (r :: states) w
      = monitorWait c ctx changes r states
          ((w.emit (.logConnState .TransientFailure)).emit (.sleep 1)) := by
  unfold monitorLoop monitorHead
  simp [h1, h2]

/-- A watchdog that first reads the states `pre`, none of them Shutdown or TransientFailure,
each followed by a wait that returns on a change, has logged them and goes on as a watchdog
that starts with the remaining observations. -/
theorem monitor_after_changes (c : GRPCClient) (ctx : Context) (pre : List connectivity.State) :
    ∀ (states : List connectivity.State) (changes : List Bool) (w : World),
      (∀ p ∈ pre, p ≠ .Shutdown ∧ p ≠ .TransientFailure) →
      c.monitorGRPCConnectivity ctx (pre ++ states)
          (List.replicate pre.length true ++ changes) w
        = c.monitorGRPCConnectivity ctx states changes (logStates pre w) := by
  induction pre with
  | nil => intro states changes w _; rfl
  | cons p ps ih =>
    intro states changes w hpre
    have hp := hpre p (List.mem_cons_self _ _)
    have hps : ∀ q ∈ ps, q ≠ .Shutdown ∧ q ≠ .TransientFailure :=
      fun q hq => hpre q (List.mem_cons_of_mem _ hq)
    have e : c.monitorGRPCConnectivity ctx (p :: ps ++ states)
        (List.replicate (p :: ps).length true ++ changes) w
        = monitorLoop c ctx (true :: (List.replicate ps.length true ++ changes)) p
            (ps ++ states) w := rfl
    rw [e, monitorLoop_other c ctx _ p _ w hp.1 hp.2, monitorWait_changed, ih states changes _ hps]
    rfl

/-- C6. TransientFailure debounce, on whole runs of the watchdog. Let the watchdog first read
the states `pre`, none of them Shutdown or TransientFailure, each followed by a wait that
returns on a change. (1) When it then reads TransientFailure and the re-read after the
one-second sleep is neither TransientFailure nor Shutdown, it runs no terminal handling at
that step and waits for the next change: if none comes and the context is not cancelled it
stays blocked, having only logged and slept; if one comes it reads the state again and goes
on as before. (2) When the re-read is TransientFailure or Shutdown it runs terminal handling
once and returns. (3) When it reads Shutdown it runs terminal handling once and returns.
(4) Any run of the watchdog runs terminal handling once if it exits as terminal and never
otherwise, so at most once. -/
theorem monitor_debounce (c : GRPCClient) (ctx : Context) (pre : List connectivity.State)
    (states : List connectivity.State) (changes : List Bool) (w : World)
    (hpre : ∀ p ∈ pre, p ≠ .Shutdown ∧ p ≠ .TransientFailure) :
    (∀ r, r ≠ .TransientFailure → r ≠ .Shutdown →
      c.monitorGRPCConnectivity ⟨false⟩ (pre ++ .TransientFailure :: r :: states)
          (List.replicate pre.length true ++ false :: changes) w
        = (((logStates pre w).emit (.logConnState .TransientFailure)).emit (.sleep 1),
            .running) ∧
      c.monitorGRPCConnectivity ctx (pre ++ .TransientFailure :: r :: states)
          (List.replicate pre.length true ++ true :: changes) w
        = c.monitorGRPCConnectivity ctx states changes
            (((logStates pre w).emit (.logConnState .TransientFailure)).emit (.sleep 1))) ∧
    (∀ r, r = .TransientFailure ∨ r = .Shutdown →
      c.monitorGRPCConnectivity ctx (pre ++ .TransientFailure :: r :: states)
          (List.replicate pre.length true ++ changes) w
        = (c.shutdown (((logStates pre w).emit (.logConnState .TransientFailure)).emit
            (.sleep 1)), .terminal)) ∧
    c.monitorGRPCConnectivity ctx (pre ++ .Shutdown :: states)
        (List.replicate pre.length true ++ changes) w
      = (c.shutdown ((logStates pre w).emit (.logConnState .Shutdown)), .terminal) ∧
    (∀ (states2 : List connectivity.State) (changes2 : List Bool),
      shutdownRuns (c.monitorGRPCConnectivity ctx states2 changes2 w).1.trace
        = shutdownRuns w.trace +
          (if (c.monitorGRPCConnectivity ctx states2 changes2 w).2 = .terminal then 1 else 0)) := by
  refine ⟨?_, ?_, ?_, fun states2 changes2 =>
    (monitorGRPCConnectivity_runs c ctx states2 changes2 w).1⟩
  · intro r h1 h2
    constructor
    · rw [monitor_after_changes c ⟨false⟩ pre _ _ w hpre, monitorGRPCConnectivity_cons,
        monitorLoop_recovered c _ _ r states _ h2 h1, monitorWait_cons]
      simp [WaitForStateChange]
    · rw [monitor_after_changes c ctx pre _ _ w hpre, monitorGRPCConnectivity_cons,
        monitorLoop_recovered c _ _ r states _ h2 h1, monitorWait_changed]
  · intro r hr
    rw [monitor_after_changes c ctx pre _ _ w hpre, monitorGRPCConnectivity_cons]
    unfold monitorLoop monitorHead
    rcases hr with hr | hr <;> simp [hr]
  · rw [monitor_after_changes c ctx pre _ _ w hpre, monitorGRPCConnectivity_cons]
    unfold monitorLoop monitorHead
    simp

/-- C6 at a concrete input: the watchdog of `handle7` in `connected` reads Idle, Connecting
and Ready, then TransientFailure and, after the sleep, Ready again: it stays blocked in its
wait with no terminal handling. When it reads TransientFailure twice it runs terminal
handling, which clears the handle and calls callback 9. -/
theorem monitor_debounce_witness :
    handle7.monitorGRPCConnectivity ⟨false⟩
        [.Idle, .Connecting, .Ready, .TransientFailure, .Ready] [true, true, true, false]
        connected
      = (((logStates [.Idle, .Connecting, .Ready] connected).emit
          (.logConnState .TransientFailure)).emit (.sleep 1), .running) ∧
    handle7.monitorGRPCConnectivity ⟨false⟩
        [.Idle, .Connecting, .Ready, .TransientFailure, .TransientFailure] [true, true, true]
        connected
      = (handle7.shutdown (((logStates [.Idle, .Connecting, .Ready] connected).emit
          (.logConnState .TransientFailure)).emit (.sleep 1)), .terminal) :=
  ⟨((monitor_debounce handle7 ⟨false⟩ [.Idle, .Connecting, .Ready] [] [] connected
      (by decide)).1 .Ready (by decide) (by decide)).1,
    (monitor_debounce handle7 ⟨false⟩ [.Idle, .Connecting, .Ready] [] [] connected
      (by decide)).2.1 .TransientFailure (Or.inl rfl)⟩

/-- How the watchdog exits on cancellation. Let it first read the states `pre`, none of them
Shutdown or TransientFailure, each followed by a wait that returns on a change. With the
context cancelled, when it then reads a state that is neither Shutdown nor TransientFailure,
or reads TransientFailure and re-reads such a state, and the state does not change, its wait
returns false and it exits having run no terminal handling. Whatever the context, a run that
exits through cancellation has run no terminal handling, made no callback call and left the
registry as it was. -/
theorem monitor_cancelled_exit (c : GRPCClient) (pre : List connectivity.State)
    (states : List connectivity.State) (changes : List Bool) (w : World)
    (hpre : ∀ p ∈ pre, p ≠ .Shutdown ∧ p ≠ .TransientFailure) :
    (∀ s, s ≠ .Shutdown → s ≠ .TransientFailure →
      c.monitorGRPCConnectivity ⟨true⟩ (pre ++ s :: states)
          (List.replicate pre.length true ++ false :: changes) w
        = (((logStates pre w).emit (.logConnState s)).emit .logMonitorCancelled, .cancelled) ∧
      c.monitorGRPCConnectivity ⟨true⟩ (pre ++ .TransientFailure :: s :: states)
          (List.replicate pre.length true ++ false :: changes) w
        = ((((logStates pre w).emit (.logConnState .TransientFailure)).emit (.sleep 1)).emit
            .logMonitorCancelled, .cancelled)) ∧
    (∀ (ctx : Context) (states2 : List connectivity.State) (changes2 : List Bool),
      (c.monitorGRPCConnectivity ctx states2 changes2 w).2 = .cancelled →
      shutdownRuns (c.monitorGRPCConnectivity ctx states2 changes2 w).1.trace
        = shutdownRuns w.trace ∧
      callbackCalls (c.monitorGRPCConnectivity ctx states2 changes2 w).1.trace
        = callbackCalls w.trace ∧
      (c.monitorGRPCConnectivity ctx states2 changes2 w).1.clientMap = w.clientMap) := by
  refine ⟨fun s h1 h2 => ⟨?_, ?_⟩, ?_⟩
  · rw [monitor_after_changes c ⟨true⟩ pre _ _ w hpre, monitorGRPCConnectivity_cons,
      monitorLoop_other c _ _ s states _ h1 h2, monitorWait_cons]
    simp [WaitForStateChange]
  · rw [monitor_after_changes c ⟨true⟩ pre _ _ w hpre, monitorGRPCConnectivity_cons,
      monitorLoop_recovered c _ _ s states _ h1 h2, monitorWait_cons]
    simp [WaitForStateChange]
  · intro ctx states2 changes2 hc
    obtain ⟨i1, i2⟩ := monitorGRPCConnectivity_runs c ctx states2 changes2 w
    have hne : (c.monitorGRPCConnectivity ctx states2 changes2 w).2 ≠ .terminal := by
      rw [hc]; decide
    obtain ⟨j1, j2⟩ := i2 hne
    refine ⟨?_, j2, j1⟩
    rw [i1, hc]
    simp

/-- C7 on the code. `DeleteGRPCClient("k")` on `connected` cancels the context of the
watchdog of `handle7` and then closes its connection. A watchdog of `handle7` whose context is
cancelled and that reads the state Shutdown, as its first read or as the read after a wait
that returned because the state changed, runs terminal handling and calls the shutdown
callback 9; so does one that reads TransientFailure twice. The cancellation is not looked at
before the state is acted on. -/
theorem cancelled_watchdog_runs_shutdown :
    Event.cancel 1 ∈ unregistered.trace ∧ Event.connClose ⟨7⟩ ∈ unregistered.trace ∧
    Event.goMonitor ⟨7⟩ 1 ∈ unregistered.trace ∧
    (handle7.monitorGRPCConnectivity ⟨true⟩ [.Shutdown] [] unregistered).2 = .terminal ∧
    (handle7.monitorGRPCConnectivity ⟨true⟩ [.Shutdown] [] unregistered).1.trace
      = unregistered.trace ++ [.logConnState .Shutdown, .logShutdown "10.0.0.5:8080",
          .cbShutdown 9] ∧
    (handle7.monitorGRPCConnectivity ⟨true⟩ [.Ready, .Shutdown] [true] unregistered).2
      = .terminal ∧
    (handle7.monitorGRPCConnectivity ⟨true⟩ [.Ready, .Shutdown] [true] unregistered).1.trace
      = unregistered.trace ++ [.logConnState .Ready, .logConnState .Shutdown,
          .logShutdown "10.0.0.5:8080", .cbShutdown 9] ∧
    (handle7.monitorGRPCConnectivity ⟨true⟩ [.TransientFailure, .TransientFailure] []
        unregistered).1.trace
      = unregistered.trace ++ [.logConnState .TransientFailure, .sleep 1,
          .logShutdown "10.0.0.5:8080", .cbShutdown 9] := by
  refine ⟨by decide, by decide, by decide, rfl, by decide, rfl, by decide, by decide⟩

/-! ### Server endpoint -/

/-- Once `Stop` is among the calls made during a `Serve`, the endpoint is marked stopped. -/
theorem applyCalls_Stop (calls : List StopCall) :
    ∀ (s : GRPCServer) (t : List Event),
      (s.stopped = true ∨ StopCall.Stop ∈ calls) → (applyCalls calls s t).1.stopped = true := by
  induction calls with
  | nil => intro s t h; simpa [applyCalls] using h
  | cons c rest ih =>
    intro s t h
    cases c with
    | Stop => exact ih _ _ (Or.inl rfl)
    | GracefulStop =>
      refine ih _ _ ?_
      rcases h with h | h
      · exact Or.inl h
      · simp at h
        exact Or.inr h

/-- Calls of `GracefulStop` alone leave the `stopped` flag as it was. -/
theorem applyCalls_GracefulStop (calls : List StopCall) :
    ∀ (s : GRPCServer) (t : List Event),
      (∀ c ∈ calls, c = StopCall.GracefulStop) → (applyCalls calls s t).1.stopped = s.stopped := by
  induction calls with
  | nil => intro s t _; rfl
  | cons c rest ih =>
    intro s t h
    have hc : c = StopCall.GracefulStop := h c (List.mem_cons_self _ _)
    subst hc
    exact ih _ _ (fun c hc => h c (List.mem_cons_of_mem _ hc))

/-- The `Start` loop on a `Serve` that returns an error: it leaves the loop exactly when the
endpoint is marked stopped, and otherwise logs, sleeps 5 seconds and serves again. -/
theorem startLoop_error (r : ServeRound) (rounds : List ServeRound) (s : GRPCServer)
    (t : List Event) (err : Error) (he : r.err = some err) :
    startLoop (r :: rounds) s t =
      if (applyCalls r.during s (t ++ [.serve])).1.stopped then
        ((applyCalls r.during s (t ++ [.serve])).1, (applyCalls r.during s (t ++ [.serve])).2, true)
      else
        startLoop rounds (applyCalls r.during s (t ++ [.serve])).1
          ((applyCalls r.during s (t ++ [.serve])).2 ++ [.logServeFailed err, .sleep 5]) := by
  rw [startLoop]
  simp [he]

/-- C9 on the code. A running endpoint on which `GracefulStop` is called while `Serve` runs,
and whose `Serve` then returns an error: `Start` does not see it as stopped; it logs the
error, sleeps 5 seconds and calls `Serve` again. After `Stop` in the same place `Start`
leaves its loop without sleeping. -/
theorem Start_after_GracefulStop :
    GRPCServer.Start ⟨true⟩ [⟨[.GracefulStop], some "closed"⟩] []
      = (⟨false⟩, [.serve, .serverGracefulStop, .logServeFailed "closed", .sleep 5, .serve],
          false) ∧
    GRPCServer.Start ⟨true⟩ [⟨[.Stop], some "closed"⟩] []
      = (⟨true⟩, [.serve, .serverStop], true) := by
  decide

end Cluster
